import Mathlib

/-!
Verification of the Wio Terminal RSA encryption demo (src/src/main.cpp).

The program is a linear Arduino `setup()` routine: initialize serial and the
SD card, load a DER-encoded public and private key from fixed file paths,
seed the mbedtls CTR-DRBG, parse both keys, encrypt a fixed message with the
public key, decrypt the ciphertext with the private key, and print results
over the serial console.  Every failure prints a report and enters an
infinite idle loop (`while (1);`).

We embed the routine shallowly: bytes are `Nat` lists, the SD card is a
map from path strings to file contents, and the mbedtls primitives
(which are an external library, not part of this repository) are an abstract
`CryptoLib` record; properties the spec attributes to mbedtls are stated as
hypotheses about that record or as spec-modelled definitions.  The run of
`setup()` produces a trace of observable events (serial prints, library
calls, the halt loop) together with the final values of the local variables
the claims mention.
-/

namespace WioRsa

/-- The constant `RSA_KEY_SIZE` (2048), from `#define RSA_KEY_SIZE 2048`. -/
def RSA_KEY_SIZE : Nat := 2048

/-- The constant `MAX_MESSAGE_LENGTH` (100), from `#define MAX_MESSAGE_LENGTH 100`. -/
def MAX_MESSAGE_LENGTH : Nat := 100

/-- The constant `MAX_ENCRYPTED_LENGTH` (256, for RSA-2048), from `#define MAX_ENCRYPTED_LENGTH 256`. -/
def MAX_ENCRYPTED_LENGTH : Nat := 256

/-- The path `const char *PRIVATE_KEY_FILE = "/private.der";`. -/
def PRIVATE_KEY_FILE : String := "/private.der"

/-- The path `const char *PUBLIC_KEY_FILE = "/public.der";`. -/
def PUBLIC_KEY_FILE : String := "/public.der"

/-- The fixed demo message, as its byte sequence:
`const char *message = "Hello, Wio Terminal with RSA encryption!";` -/
def message : List Nat :=
  (String.toList "Hello, Wio Terminal with RSA encryption!").map Char.toNat

/-- Capacity of `char public_key_buf[2048]` and `char private_key_buf[2048]`. -/
def keyBufferCapacity : Nat := 2048

/-- Capacity of `unsigned char encrypted[MAX_ENCRYPTED_LENGTH]`. -/
def encryptedBufferCapacity : Nat := MAX_ENCRYPTED_LENGTH

/-- Capacity of `unsigned char decrypted[MAX_MESSAGE_LENGTH]`. -/
def decryptedBufferCapacity : Nat := MAX_MESSAGE_LENGTH

/-- The SD card filesystem: a map from path to file contents (bytes);
`none` means the file does not exist / cannot be opened. -/
structure FS where
  files : String → Option (List Nat)

/-- The result of `File.size()` for the file opened at `filename` (0 when the open fails). -/
def fileSize (fs : FS) (filename : String) : Nat :=
  match fs.files filename with
  | none => 0
  | some content => content.length

/-- Observable events of the run: serial prints, library calls with the
arguments the program passes, and entry into the infinite `while (1);` loop. -/
inductive Event where
  | print (s : String)
  | printNat (n : Nat)
  | printErr (code : Int)
  | openFail (filename : String)
  | loaded (n : Nat) (filename : String)
  | seedCall
  | parsePubCall (buf : List Nat) (len : Nat)
  | parsePrivCall (buf : List Nat) (len : Nat)
  | encryptCall (pt : List Nat) (osize : Nat)
  | printHex (bytes : List Nat)
  | decryptCall (ct : List Nat) (osize : Nat)
  | printDecrypted (bytes : List Nat)
  | halt
  deriving DecidableEq, Repr

/-- Modelled from the spec: the external mbedtls primitives the program
delegates to (`mbedtls_ctr_drbg_seed`, `mbedtls_pk_parse_public_key`,
`mbedtls_pk_parse_key`, `mbedtls_pk_encrypt`, `mbedtls_pk_decrypt`).  The
library is not part of this repository, so it is kept abstract: each
primitive returns a status code (0 = success) and, for encrypt/decrypt, the
output bytes it writes.  Properties the spec attributes to mbedtls are
supplied as hypotheses where a claim needs them. -/
structure CryptoLib where
  seedRet : Int
  parsePub : List Nat → Nat → Int
  parsePriv : List Nat → Nat → Int
  encrypt : List Nat → Int × List Nat
  decrypt : List Nat → Int × List Nat

/-- Modelled from the spec: an RSA ciphertext for an n-bit modulus occupies
n / 8 bytes ("2048-bit key implies ciphertext is 256 bytes"). -/
def rsaCiphertextLength (keyBits : Nat) : Nat := keyBits / 8

/-- Result of `loadKeyFromSD`: the returned Bool, the bytes placed in the
buffer, the byte count `file.readBytes` reported, and the serial prints. -/
structure LoadResult where
  ok : Bool
  buf : List Nat
  bytesRead : Nat
  trace : List Event
  deriving DecidableEq, Repr

/-- Shallow embedding of `loadKeyFromSD(filename, buffer, buffer_size)`:
open the file (fail if absent), read at most `buffer_size` bytes into the
buffer, report the count, and return `bytes_read > 0`. -/
def loadKeyFromSD (fs : FS) (filename : String) (buffer_size : Nat) : LoadResult :=
  match fs.files filename with
  | none =>
      { ok := false, buf := [], bytesRead := 0
        trace := [Event.openFail filename] }
  | some content =>
      let readBytes := content.take buffer_size
      { ok := decide (readBytes.length > 0)
        buf := readBytes
        bytesRead := readBytes.length
        trace := [Event.loaded readBytes.length filename] }

/-- The environment a run of `setup()` executes in: whether `SD.begin`
succeeds, the filesystem, and the external crypto library. -/
structure Env where
  sdInitOk : Bool
  fs : FS
  lib : CryptoLib

/-- The observable outcome of one run of `setup()`: the event trace, whether
the program entered the infinite halt loop, and the final values of
`encrypted`, `encrypted_length`, `decrypted` (contents written by the
library, before null termination) and `decrypted_length`. -/
structure RunResult where
  trace : List Event
  halted : Bool
  encrypted : List Nat
  encryptedLength : Nat
  decrypted : List Nat
  decryptedLength : Nat
  deriving DecidableEq, Repr

/-- Shallow embedding of the decryption step of `setup()` (the
`mbedtls_pk_decrypt` call and its failure branch, lines 163-177): call the
library on the ciphertext; on a non-zero code print the report and halt,
otherwise return the plaintext the library wrote. -/
def decryptStep (lib : CryptoLib) (ct : List Nat) : List Event × Option (List Nat) :=
  let dr := lib.decrypt ct
  if dr.1 ≠ 0 then
    ([Event.decryptCall ct MAX_MESSAGE_LENGTH,
      Event.print "Decryption failed: ", Event.printErr dr.1, Event.halt], none)
  else
    ([Event.decryptCall ct MAX_MESSAGE_LENGTH], some dr.2)

/-- The decryption stage of `setup()` (hex print of the ciphertext, the
`mbedtls_pk_decrypt` call with its failure branch, null termination and the
final prints); `t` is the trace accumulated so far and `ct` the ciphertext
with its length `encrypted_length`. -/
def runDecrypt (env : Env) (t : List Event) (ct : List Nat) : RunResult :=
  let t7 := t ++ [Event.printHex ct, Event.print "Decrypting...",
    Event.decryptCall ct MAX_MESSAGE_LENGTH]
  let dr := env.lib.decrypt ct
  if dr.1 ≠ 0 then
    { trace := t7 ++ [Event.print "Decryption failed: ",
        Event.printErr dr.1, Event.halt]
      halted := true, encrypted := ct, encryptedLength := ct.length
      decrypted := [], decryptedLength := 0 }
  else
    { trace := t7 ++ [Event.printDecrypted dr.2, Event.print "Demo completed!"]
      halted := false, encrypted := ct, encryptedLength := ct.length
      decrypted := dr.2, decryptedLength := dr.2.length }

/-- The encryption stage of `setup()` (the message prints and the
`mbedtls_pk_encrypt` call with its failure branch). -/
def runEncrypt (env : Env) (t : List Event) : RunResult :=
  let t6 := t ++ [Event.print "Keys parsed successfully!",
    Event.print "Original message: ", Event.print "Encrypting...",
    Event.encryptCall message MAX_ENCRYPTED_LENGTH]
  let er := env.lib.encrypt message
  if er.1 ≠ 0 then
    { trace := t6 ++ [Event.print "Encryption failed: ",
        Event.printErr er.1, Event.halt]
      halted := true, encrypted := [], encryptedLength := 0
      decrypted := [], decryptedLength := 0 }
  else
    runDecrypt env t6 er.2

/-- The key-parsing stage of `setup()` (the file-size reads via a second
`SD.open`, the two `mbedtls_pk_parse` calls with their failure branches). -/
def runParse (env : Env) (t : List Event) : RunResult :=
  let pubLoad := loadKeyFromSD env.fs PUBLIC_KEY_FILE keyBufferCapacity
  let privLoad := loadKeyFromSD env.fs PRIVATE_KEY_FILE keyBufferCapacity
  let pubKeySize := fileSize env.fs PUBLIC_KEY_FILE
  let privKeySize := fileSize env.fs PRIVATE_KEY_FILE
  let t4 := t ++ [Event.print "Public key size: ", Event.printNat pubKeySize,
    Event.print "Private key size: ", Event.printNat privKeySize,
    Event.parsePubCall pubLoad.buf pubKeySize]
  if env.lib.parsePub pubLoad.buf pubKeySize ≠ 0 then
    { trace := t4 ++ [Event.print "Failed to parse public key: ",
        Event.printErr (env.lib.parsePub pubLoad.buf pubKeySize), Event.halt]
      halted := true, encrypted := [], encryptedLength := 0
      decrypted := [], decryptedLength := 0 }
  else
  let t5 := t4 ++ [Event.parsePrivCall privLoad.buf privKeySize]
  if env.lib.parsePriv privLoad.buf privKeySize ≠ 0 then
    { trace := t5 ++ [Event.print "Failed to parse private key: ",
        Event.printErr (env.lib.parsePriv privLoad.buf privKeySize), Event.halt]
      halted := true, encrypted := [], encryptedLength := 0
      decrypted := [], decryptedLength := 0 }
  else
    runEncrypt env t5

/-- The RNG-seeding stage of `setup()` (the `mbedtls_ctr_drbg_seed` call
with its failure branch). -/
def runSeed (env : Env) (t : List Event) : RunResult :=
  let t3 := t ++ [Event.seedCall]
  if env.lib.seedRet ≠ 0 then
    { trace := t3 ++ [Event.print "Failed to seed random number generator: ",
        Event.printErr env.lib.seedRet, Event.halt]
      halted := true, encrypted := [], encryptedLength := 0
      decrypted := [], decryptedLength := 0 }
  else
    runParse env t3

/-- Shallow embedding of `setup()`: the linear routine of src/src/main.cpp,
factored into its successive stages.  Each `while (1);` is modelled as
emitting `Event.halt` and ending the run with `halted := true`. -/
def run (env : Env) : RunResult :=
  let t0 := [Event.print "Wio Terminal RSA Encryption Demo Starting..."]
  if !env.sdInitOk then
    { trace := t0 ++ [Event.print "SD card initialization failed!", Event.halt]
      halted := true, encrypted := [], encryptedLength := 0
      decrypted := [], decryptedLength := 0 }
  else
  let t1 := t0 ++ [Event.print "SD card initialized successfully."]
  let pubLoad := loadKeyFromSD env.fs PUBLIC_KEY_FILE keyBufferCapacity
  if !pubLoad.ok then
    { trace := t1 ++ pubLoad.trace ++
        [Event.print "Failed to load public key!", Event.halt]
      halted := true, encrypted := [], encryptedLength := 0
      decrypted := [], decryptedLength := 0 }
  else
  let privLoad := loadKeyFromSD env.fs PRIVATE_KEY_FILE keyBufferCapacity
  if !privLoad.ok then
    { trace := t1 ++ pubLoad.trace ++ privLoad.trace ++
        [Event.print "Failed to load private key!", Event.halt]
      halted := true, encrypted := [], encryptedLength := 0
      decrypted := [], decryptedLength := 0 }
  else
    runSeed env (t1 ++ pubLoad.trace ++ privLoad.trace ++
      [Event.print "Keys loaded successfully!"])

/-- The null-terminating store `decrypted[decrypted_length] = 0` writes
index `decLen` of the `decrypted` buffer; it is within bounds exactly when
that index is below the buffer capacity. -/
def nullStoreInBounds (decLen : Nat) : Prop :=
  decLen < decryptedBufferCapacity

instance (n : Nat) : Decidable (nullStoreInBounds n) := by
  unfold nullStoreInBounds; infer_instance

/-- Replacing one byte of a ciphertext: `ct` with the byte at index `i`
overwritten by `b` (corruption of a single ciphertext byte). -/
def corruptByte (ct : List Nat) (i : Nat) (b : Nat) : List Nat := ct.set i b

/-- A trace ends with a failure report followed by the halt loop: its final
events are either a plain message print then `halt`, or a message print, the
non-zero library code (printed translated to text by `displayRsaStatus`),
then `halt`. -/
inductive EndsWithReport : List Event → Prop
  | plain (p : List Event) (s : String) :
      EndsWithReport (p ++ [Event.print s, Event.halt])
  | coded (p : List Event) (s : String) (c : Int) :
      c ≠ 0 →
      EndsWithReport (p ++ [Event.print s, Event.printErr c, Event.halt])

/-! Concrete environments used to evaluate the theorems on closed inputs. -/

/-- A filesystem holding a non-empty DER blob at each of the two key paths. -/
def demoFS : FS :=
  { files := fun p =>
      if p = PUBLIC_KEY_FILE then some (List.replicate 16 48)
      else if p = PRIVATE_KEY_FILE then some (List.replicate 16 48)
      else none }

/-- A library instance on which every primitive succeeds, the ciphertext has
the modelled RSA-2048 length, and decryption returns the demo message. -/
def okLib : CryptoLib :=
  { seedRet := 0
    parsePub := fun _ _ => 0
    parsePriv := fun _ _ => 0
    encrypt := fun _ => (0, List.replicate (rsaCiphertextLength RSA_KEY_SIZE) 1)
    decrypt := fun _ => (0, message) }

/-- The fully successful demo environment. -/
def demoEnv : Env := { sdInitOk := true, fs := demoFS, lib := okLib }

/-- An environment whose SD-card initialization fails. -/
def sdFailEnv : Env := { sdInitOk := false, fs := demoFS, lib := okLib }

/-- A library on which parsing the public key fails with a non-zero code. -/
def parseFailLib : CryptoLib := { okLib with parsePub := fun _ _ => -1 }

/-- An environment with both key files present and readable whose public key
fails to parse. -/
def parseFailEnv : Env := { sdInitOk := true, fs := demoFS, lib := parseFailLib }

/-- A library whose decryption always fails with a non-zero code. -/
def decFailLib : CryptoLib := { okLib with decrypt := fun _ => (-1, []) }

/-- A filesystem whose public key file exists but is empty. -/
def emptyPubFS : FS :=
  { files := fun p =>
      if p = PUBLIC_KEY_FILE then some []
      else if p = PRIVATE_KEY_FILE then some (List.replicate 16 48)
      else none }

/-- An environment whose public key file is present but zero bytes long. -/
def emptyPubEnv : Env := { sdInitOk := true, fs := emptyPubFS, lib := okLib }

/-- A filesystem whose public key file is larger than the 2048-byte buffer. -/
def bigPubFS : FS :=
  { files := fun p =>
      if p = PUBLIC_KEY_FILE then some (List.replicate 3000 48)
      else if p = PRIVATE_KEY_FILE then some (List.replicate 16 48)
      else none }

/-- An environment whose public key file exceeds the key buffer capacity. -/
def bigPubEnv : Env := { sdInitOk := true, fs := bigPubFS, lib := okLib }

/-! ## Basic lemmas about the embedding -/

theorem load_trace_cases (fs : FS) (fn : String) (bs : Nat) :
    (loadKeyFromSD fs fn bs).trace = [Event.openFail fn] ∨
    ∃ n, (loadKeyFromSD fs fn bs).trace = [Event.loaded n fn] := by
  unfold loadKeyFromSD
  cases fs.files fn <;> simp

theorem loadKeyFromSD_ok_iff (fs : FS) (fn : String) (bs : Nat) :
    (loadKeyFromSD fs fn bs).ok = true ↔
    ∃ content, fs.files fn = some content ∧
      0 < (loadKeyFromSD fs fn bs).bytesRead := by
  unfold loadKeyFromSD
  cases h : fs.files fn <;> simp [h]

/-- When the SD card initializes, both key loads succeed, and the seed call
returns 0, the trace reaches the public-key parse call: it begins with the
startup events up to `parsePubCall` applied to exactly the loader bytes and
the on-disk file size, whatever happens afterwards. -/
theorem run_reach_parsePub (env : Env)
    (hsd : env.sdInitOk = true)
    (hpub : (loadKeyFromSD env.fs PUBLIC_KEY_FILE keyBufferCapacity).ok = true)
    (hpriv : (loadKeyFromSD env.fs PRIVATE_KEY_FILE keyBufferCapacity).ok = true)
    (hseed : env.lib.seedRet = 0) :
    ([Event.print "Wio Terminal RSA Encryption Demo Starting...",
      Event.print "SD card initialized successfully."] ++
     (loadKeyFromSD env.fs PUBLIC_KEY_FILE keyBufferCapacity).trace ++
     (loadKeyFromSD env.fs PRIVATE_KEY_FILE keyBufferCapacity).trace ++
     [Event.print "Keys loaded successfully!", Event.seedCall,
      Event.print "Public key size: ",
      Event.printNat (fileSize env.fs PUBLIC_KEY_FILE),
      Event.print "Private key size: ",
      Event.printNat (fileSize env.fs PRIVATE_KEY_FILE),
      Event.parsePubCall
        (loadKeyFromSD env.fs PUBLIC_KEY_FILE keyBufferCapacity).buf
        (fileSize env.fs PUBLIC_KEY_FILE)]) <+: (run env).trace := by
  simp only [run, runSeed, runParse, runEncrypt, runDecrypt,
    hsd, hpub, hpriv, hseed]
  split_ifs <;> simp_all [List.append_assoc]

/-! ## Claims -/

/-- Claim C9: loadKeyFromSD returns true iff the file opens and at least one
byte is read; a present but zero-byte key file is a load failure, which
halts the program with the failure report. -/
theorem C9_load_ok_iff_bytes_read :
    (∀ (fs : FS) (fn : String) (bs : Nat),
      (loadKeyFromSD fs fn bs).ok = true ↔
      ∃ content, fs.files fn = some content ∧
        0 < (loadKeyFromSD fs fn bs).bytesRead) ∧
    (∀ (fs : FS) (fn : String) (bs : Nat),
      fs.files fn = some [] → (loadKeyFromSD fs fn bs).ok = false) ∧
    (∀ env : Env, env.sdInitOk = true →
      env.fs.files PUBLIC_KEY_FILE = some [] →
      (run env).halted = true ∧
      Event.print "Failed to load public key!" ∈ (run env).trace) := by
  refine ⟨loadKeyFromSD_ok_iff, ?_, ?_⟩
  · intro fs fn bs h
    unfold loadKeyFromSD
    simp [h]
  · intro env hsd hemp
    have hld : loadKeyFromSD env.fs PUBLIC_KEY_FILE keyBufferCapacity =
        { ok := false, buf := [], bytesRead := 0,
          trace := [Event.loaded 0 PUBLIC_KEY_FILE] } := by
      unfold loadKeyFromSD
      simp [hemp]
    simp [run, hsd, hld]

/-- Claim C9 witness: on the environment whose public key file is empty, the
load fails and the run halts with the report. -/
theorem C9_load_ok_iff_bytes_read_witness :
    emptyPubEnv.sdInitOk = true ∧
    emptyPubEnv.fs.files PUBLIC_KEY_FILE = some [] ∧
    ((run emptyPubEnv).halted = true ∧
      Event.print "Failed to load public key!" ∈ (run emptyPubEnv).trace) :=
  ⟨by decide, by decide,
    C9_load_ok_iff_bytes_read.2.2 emptyPubEnv (by decide) (by decide)⟩

/-- Claim C10: a key file larger than the 2048-byte key buffer is silently
truncated: loadKeyFromSD reads only the first buffer_size bytes and still
returns true, while the length later passed to the key parser is the full
on-disk file size from a separate open, exceeding the bytes actually held in
the buffer. -/
theorem C10_truncated_load_oversized_parse_length :
    (∀ (fs : FS) (fn : String) (content : List Nat),
      fs.files fn = some content → keyBufferCapacity < content.length →
      (loadKeyFromSD fs fn keyBufferCapacity).bytesRead = keyBufferCapacity ∧
      (loadKeyFromSD fs fn keyBufferCapacity).ok = true ∧
      (loadKeyFromSD fs fn keyBufferCapacity).buf = content.take keyBufferCapacity ∧
      fileSize fs fn = content.length ∧
      (loadKeyFromSD fs fn keyBufferCapacity).buf.length < fileSize fs fn) ∧
    (∀ (env : Env) (content : List Nat),
      env.fs.files PUBLIC_KEY_FILE = some content →
      keyBufferCapacity < content.length →
      env.sdInitOk = true →
      (loadKeyFromSD env.fs PRIVATE_KEY_FILE keyBufferCapacity).ok = true →
      env.lib.seedRet = 0 →
      Event.parsePubCall
        (loadKeyFromSD env.fs PUBLIC_KEY_FILE keyBufferCapacity).buf
        content.length ∈ (run env).trace ∧
      (loadKeyFromSD env.fs PUBLIC_KEY_FILE keyBufferCapacity).buf.length <
        content.length) := by
  have base : ∀ (fs : FS) (fn : String) (content : List Nat),
      fs.files fn = some content → keyBufferCapacity < content.length →
      (loadKeyFromSD fs fn keyBufferCapacity).bytesRead = keyBufferCapacity ∧
      (loadKeyFromSD fs fn keyBufferCapacity).ok = true ∧
      (loadKeyFromSD fs fn keyBufferCapacity).buf = content.take keyBufferCapacity ∧
      fileSize fs fn = content.length ∧
      (loadKeyFromSD fs fn keyBufferCapacity).buf.length < fileSize fs fn := by
    intro fs fn content h hlen
    have hcap : keyBufferCapacity = 2048 := rfl
    rw [hcap] at hlen ⊢
    unfold loadKeyFromSD fileSize
    simp [h]
    omega
  refine ⟨base, ?_⟩
  intro env content h hlen hsd hpriv hseed
  obtain ⟨hread, hok, hbuf, hsize, hlt⟩ := base env.fs PUBLIC_KEY_FILE content h hlen
  have hpfx := run_reach_parsePub env hsd hok hpriv hseed
  refine ⟨hpfx.subset ?_, ?_⟩
  · rw [hsize]
    simp
  · rw [hsize] at hlt
    exact hlt

/-- Claim C10 witness: evaluated on an environment whose public key file
holds 3000 bytes. -/
theorem C10_truncated_load_oversized_parse_length_witness :
    bigPubFS.files PUBLIC_KEY_FILE = some (List.replicate 3000 48) ∧
    keyBufferCapacity < (List.replicate 3000 48 : List Nat).length ∧
    ((loadKeyFromSD bigPubFS PUBLIC_KEY_FILE keyBufferCapacity).bytesRead =
        keyBufferCapacity ∧
      (loadKeyFromSD bigPubFS PUBLIC_KEY_FILE keyBufferCapacity).ok = true ∧
      (loadKeyFromSD bigPubFS PUBLIC_KEY_FILE keyBufferCapacity).buf =
        (List.replicate 3000 48 : List Nat).take keyBufferCapacity ∧
      fileSize bigPubFS PUBLIC_KEY_FILE =
        (List.replicate 3000 48 : List Nat).length ∧
      (loadKeyFromSD bigPubFS PUBLIC_KEY_FILE keyBufferCapacity).buf.length <
        fileSize bigPubFS PUBLIC_KEY_FILE) :=
  ⟨rfl, by rw [List.length_replicate]; decide,
    C10_truncated_load_oversized_parse_length.1 bigPubFS PUBLIC_KEY_FILE
      (List.replicate 3000 48) rfl (by rw [List.length_replicate]; decide)⟩

/-- If the encrypt call appears in the trace, every earlier guard of the
routine passed: the SD card initialized, both key loads returned true, the
seed call returned 0 and both parse calls returned 0. -/
theorem encrypt_reached (env : Env) (pt : List Nat) (os : Nat)
    (hcall : Event.encryptCall pt os ∈ (run env).trace) :
    env.sdInitOk = true ∧
    (loadKeyFromSD env.fs PUBLIC_KEY_FILE keyBufferCapacity).ok = true ∧
    (loadKeyFromSD env.fs PRIVATE_KEY_FILE keyBufferCapacity).ok = true ∧
    env.lib.seedRet = 0 ∧
    env.lib.parsePub
      (loadKeyFromSD env.fs PUBLIC_KEY_FILE keyBufferCapacity).buf
      (fileSize env.fs PUBLIC_KEY_FILE) = 0 ∧
    env.lib.parsePriv
      (loadKeyFromSD env.fs PRIVATE_KEY_FILE keyBufferCapacity).buf
      (fileSize env.fs PRIVATE_KEY_FILE) = 0 := by
  have hP := load_trace_cases env.fs PUBLIC_KEY_FILE keyBufferCapacity
  have hQ := load_trace_cases env.fs PRIVATE_KEY_FILE keyBufferCapacity
  by_cases hsd : env.sdInitOk = true
  swap
  · rw [Bool.not_eq_true] at hsd
    simp [run, hsd] at hcall
  by_cases hpub :
      (loadKeyFromSD env.fs PUBLIC_KEY_FILE keyBufferCapacity).ok = true
  swap
  · rw [Bool.not_eq_true] at hpub
    rcases hP with hP | ⟨nP, hP⟩ <;> simp [run, hsd, hpub, hP] at hcall
  by_cases hpriv :
      (loadKeyFromSD env.fs PRIVATE_KEY_FILE keyBufferCapacity).ok = true
  swap
  · rw [Bool.not_eq_true] at hpriv
    rcases hP with hP | ⟨nP, hP⟩ <;> rcases hQ with hQ | ⟨nQ, hQ⟩ <;>
      simp [run, hsd, hpub, hpriv, hP, hQ] at hcall
  by_cases hseed : env.lib.seedRet = 0
  swap
  · rcases hP with hP | ⟨nP, hP⟩ <;> rcases hQ with hQ | ⟨nQ, hQ⟩ <;>
      simp [run, runSeed, hsd, hpub, hpriv, hseed, hP, hQ] at hcall
  by_cases hppub : env.lib.parsePub
      (loadKeyFromSD env.fs PUBLIC_KEY_FILE keyBufferCapacity).buf
      (fileSize env.fs PUBLIC_KEY_FILE) = 0
  swap
  · rcases hP with hP | ⟨nP, hP⟩ <;> rcases hQ with hQ | ⟨nQ, hQ⟩ <;>
      simp [run, runSeed, runParse, hsd, hpub, hpriv, hseed, hppub, hP, hQ]
        at hcall
  by_cases hppriv : env.lib.parsePriv
      (loadKeyFromSD env.fs PRIVATE_KEY_FILE keyBufferCapacity).buf
      (fileSize env.fs PRIVATE_KEY_FILE) = 0
  swap
  · rcases hP with hP | ⟨nP, hP⟩ <;> rcases hQ with hQ | ⟨nQ, hQ⟩ <;>
      simp [run, runSeed, runParse, hsd, hpub, hpriv, hseed, hppub, hppriv,
        hP, hQ] at hcall
  exact ⟨hsd, hpub, hpriv, hseed, hppub, hppriv⟩

/-- Claim C1: for a valid 2048-bit key pair loaded from the SD card (one on
which the library decrypt inverts the library encrypt on the demo message,
all primitives succeeding), the run encrypts then decrypts the fixed message
and the decrypted buffer equals the message exactly; the run completes
without halting and prints the recovered message. -/
theorem C1_encrypt_decrypt_roundtrip (env : Env)
    (hsd : env.sdInitOk = true)
    (hpub : (loadKeyFromSD env.fs PUBLIC_KEY_FILE keyBufferCapacity).ok = true)
    (hpriv : (loadKeyFromSD env.fs PRIVATE_KEY_FILE keyBufferCapacity).ok = true)
    (hseed : env.lib.seedRet = 0)
    (hppub : env.lib.parsePub
      (loadKeyFromSD env.fs PUBLIC_KEY_FILE keyBufferCapacity).buf
      (fileSize env.fs PUBLIC_KEY_FILE) = 0)
    (hppriv : env.lib.parsePriv
      (loadKeyFromSD env.fs PRIVATE_KEY_FILE keyBufferCapacity).buf
      (fileSize env.fs PRIVATE_KEY_FILE) = 0)
    (henc : (env.lib.encrypt message).1 = 0)
    (hdec : env.lib.decrypt (env.lib.encrypt message).2 = (0, message)) :
    (run env).halted = false ∧
    (run env).decrypted = message ∧
    (run env).decryptedLength = message.length ∧
    Event.printDecrypted message ∈ (run env).trace ∧
    Event.print "Demo completed!" ∈ (run env).trace := by
  simp [run, runSeed, runParse, runEncrypt, runDecrypt,
    hsd, hpub, hpriv, hseed, hppub, hppriv, henc, hdec]

/-- Claim C1 witness: the round trip evaluated on the concrete demo
environment. -/
theorem C1_encrypt_decrypt_roundtrip_witness :
    (run demoEnv).halted = false ∧
    (run demoEnv).decrypted = message ∧
    (run demoEnv).decryptedLength = message.length ∧
    Event.printDecrypted message ∈ (run demoEnv).trace ∧
    Event.print "Demo completed!" ∈ (run demoEnv).trace :=
  C1_encrypt_decrypt_roundtrip demoEnv rfl (by decide) (by decide) rfl rfl rfl
    rfl rfl

/-- Claim C2: whenever the encrypt call is reached and succeeds (returns 0)
with the configured 2048-bit key - the library writing the modelled RSA-2048
ciphertext length - the resulting encrypted_length is exactly 256 bytes. -/
theorem C2_encrypted_length_is_256 (env : Env)
    (hlen : (env.lib.encrypt message).1 = 0 →
      (env.lib.encrypt message).2.length = rsaCiphertextLength RSA_KEY_SIZE)
    (hcall : Event.encryptCall message MAX_ENCRYPTED_LENGTH ∈ (run env).trace)
    (hret : (env.lib.encrypt message).1 = 0) :
    (run env).encryptedLength = 256 := by
  obtain ⟨hsd, hpub, hpriv, hseed, hppub, hppriv⟩ :=
    encrypt_reached env message MAX_ENCRYPTED_LENGTH hcall
  have h2 := hlen hret
  simp only [run, runSeed, runParse, runEncrypt, runDecrypt,
    hsd, hpub, hpriv, hseed, hppub, hppriv]
  split_ifs <;> simp_all [rsaCiphertextLength, RSA_KEY_SIZE]

/-- Claim C2 witness: evaluated on the demo environment, where the library
produces a 256-byte ciphertext. -/
theorem C2_encrypted_length_is_256_witness :
    ((demoEnv.lib.encrypt message).1 = 0 →
      (demoEnv.lib.encrypt message).2.length = rsaCiphertextLength RSA_KEY_SIZE) ∧
    Event.encryptCall message MAX_ENCRYPTED_LENGTH ∈ (run demoEnv).trace ∧
    (demoEnv.lib.encrypt message).1 = 0 ∧
    (run demoEnv).encryptedLength = 256 :=
  ⟨fun _ => by
      have hE : demoEnv.lib.encrypt message =
          (0, List.replicate (rsaCiphertextLength RSA_KEY_SIZE) 1) := rfl
      rw [hE, List.length_replicate],
    by decide, rfl,
    C2_encrypted_length_is_256 demoEnv
      (fun _ => by
        have hE : demoEnv.lib.encrypt message =
            (0, List.replicate (rsaCiphertextLength RSA_KEY_SIZE) 1) := rfl
        rw [hE, List.length_replicate])
      (by decide) rfl⟩

/-- Claim C5: a ciphertext with a corrupted byte that the library rejects
(modelled from the spec: mbedtls padding verification fails on a corrupted
ciphertext) makes the decryption step report the non-zero code and halt, and
the step never emits a decrypted-plaintext print. -/
theorem C5_corrupted_ciphertext_rejected (lib : CryptoLib) (ct : List Nat)
    (i : Nat) (b : Nat)
    (hrej : (lib.decrypt (corruptByte ct i b)).1 ≠ 0) :
    (∃ c, c ≠ 0 ∧ decryptStep lib (corruptByte ct i b) =
      ([Event.decryptCall (corruptByte ct i b) MAX_MESSAGE_LENGTH,
        Event.print "Decryption failed: ", Event.printErr c, Event.halt],
       none)) ∧
    (∀ bs, Event.printDecrypted bs ∉ (decryptStep lib (corruptByte ct i b)).1) := by
  refine ⟨⟨(lib.decrypt (corruptByte ct i b)).1, hrej, ?_⟩, ?_⟩
  · unfold decryptStep
    rw [if_pos hrej]
  · intro bs
    unfold decryptStep
    rw [if_pos hrej]
    simp

/-- Claim C5 witness: evaluated on a library that rejects the corrupted
one-byte ciphertext. -/
theorem C5_corrupted_ciphertext_rejected_witness :
    (decFailLib.decrypt (corruptByte [7] 0 9)).1 ≠ 0 ∧
    (∀ bs, Event.printDecrypted bs ∉
      (decryptStep decFailLib (corruptByte [7] 0 9)).1) :=
  ⟨by decide,
    (C5_corrupted_ciphertext_rejected decFailLib [7] 0 9 (by decide)).2⟩

set_option maxRecDepth 4000 in
/-- Claim C7 counterexample: in the completed demo run the encrypted buffer
capacity equals the produced ciphertext length (256 = 256), so the capacity
is not strictly greater than the length the library produces. -/
theorem C7_counterexample_capacity_not_strict :
    (run demoEnv).encryptedLength = encryptedBufferCapacity ∧
    ¬ (encryptedBufferCapacity > (run demoEnv).encryptedLength) := by
  decide

/-- Claim C7 (amended): every output buffer capacity is at least (not
strictly greater than) the length the library will produce there: with a
2048-bit key the ciphertext occupies exactly the 256-byte encrypted buffer,
and the decrypted length is at most the 100-byte decrypted buffer. -/
theorem C7_buffer_capacity_sufficient (env : Env)
    (hlenE : (env.lib.encrypt message).1 = 0 →
      (env.lib.encrypt message).2.length = rsaCiphertextLength RSA_KEY_SIZE)
    (hlenD : ∀ ct, (env.lib.decrypt ct).1 = 0 →
      (env.lib.decrypt ct).2.length ≤ MAX_MESSAGE_LENGTH) :
    (run env).encryptedLength ≤ encryptedBufferCapacity ∧
    (run env).decryptedLength ≤ decryptedBufferCapacity := by
  have hD := hlenD (env.lib.encrypt message).2
  simp only [run, runSeed, runParse, runEncrypt, runDecrypt]
  split_ifs <;>
    simp_all [encryptedBufferCapacity, decryptedBufferCapacity,
      MAX_ENCRYPTED_LENGTH, MAX_MESSAGE_LENGTH, rsaCiphertextLength,
      RSA_KEY_SIZE]

/-- Claim C7 witness: the amended capacity bound evaluated on the demo
environment. -/
theorem C7_buffer_capacity_sufficient_witness :
    (run demoEnv).encryptedLength ≤ encryptedBufferCapacity ∧
    (run demoEnv).decryptedLength ≤ decryptedBufferCapacity :=
  C7_buffer_capacity_sufficient demoEnv
    (fun _ => by
      have hE : demoEnv.lib.encrypt message =
          (0, List.replicate (rsaCiphertextLength RSA_KEY_SIZE) 1) := rfl
      rw [hE, List.length_replicate])
    (fun ct _ => by
      have hE : demoEnv.lib.decrypt ct = (0, message) := rfl
      rw [hE]
      decide)

/-- Claim C8 counterexample: the stated output maximum of the decrypt call is
MAX_MESSAGE_LENGTH = 100 bytes, and for a returned decrypted_length of 100
the null-terminating store decrypted[100] is out of bounds of the 100-byte
buffer. -/
theorem C8_counterexample_store_out_of_bounds :
    100 ≤ MAX_MESSAGE_LENGTH ∧ ¬ nullStoreInBounds 100 := by
  decide

/-- Claim C8 (amended): the null-terminating store is within bounds exactly
for decrypted lengths strictly below MAX_MESSAGE_LENGTH; in particular, for
a library whose successful decryptions return fewer than 100 bytes (such as
the 40-byte demo message), the store in the run is always in bounds. -/
theorem C8_null_store_in_bounds (env : Env)
    (hdecLen : ∀ ct, (env.lib.decrypt ct).1 = 0 →
      (env.lib.decrypt ct).2.length < MAX_MESSAGE_LENGTH) :
    nullStoreInBounds (run env).decryptedLength ∧
    (∀ n, n ≤ MAX_MESSAGE_LENGTH →
      (nullStoreInBounds n ↔ n ≠ MAX_MESSAGE_LENGTH)) := by
  constructor
  · have hD := hdecLen (env.lib.encrypt message).2
    simp only [run, runSeed, runParse, runEncrypt, runDecrypt]
    split_ifs <;>
      simp_all [nullStoreInBounds, decryptedBufferCapacity, MAX_MESSAGE_LENGTH]
  · intro n hn
    have hcap : decryptedBufferCapacity = 100 := rfl
    have hmax : MAX_MESSAGE_LENGTH = 100 := rfl
    unfold nullStoreInBounds
    rw [hcap]
    rw [hmax] at hn ⊢
    omega

/-- Claim C8 witness: the amended bound evaluated on the demo environment,
whose decryptions return the 40-byte demo message. -/
theorem C8_null_store_in_bounds_witness :
    nullStoreInBounds (run demoEnv).decryptedLength ∧
    (∀ n, n ≤ MAX_MESSAGE_LENGTH →
      (nullStoreInBounds n ↔ n ≠ MAX_MESSAGE_LENGTH)) :=
  C8_null_store_in_bounds demoEnv
    (fun ct _ => by
      have hE : demoEnv.lib.decrypt ct = (0, message) := rfl
      rw [hE]
      decide)

/-- Claim C3 counterexample: an environment whose key files load but whose
public key fails to parse (every parse call returns a non-zero code) still
performs the RNG seed call before halting, so the program does not halt
before every cryptographic operation when key contents fail to parse. -/
theorem C3_counterexample_seed_precedes_parse_failure :
    (∀ b l, parseFailEnv.lib.parsePub b l ≠ 0) ∧
    (run parseFailEnv).halted = true ∧
    Event.seedCall ∈ (run parseFailEnv).trace := by
  refine ⟨?_, by decide, by decide⟩
  intro b l
  have hv : parseFailEnv.lib.parsePub b l = -1 := rfl
  rw [hv]
  decide

/-- Claim C3 (amended): a key file that is missing or unreadable halts the
program before any cryptographic operation (no seed, encrypt or decrypt
call); key contents that load but fail to parse halt the program before
encryption or decryption, though after the RNG seed call. -/
theorem C3_halt_before_crypto (env : Env) :
    (env.sdInitOk = true →
      ((loadKeyFromSD env.fs PUBLIC_KEY_FILE keyBufferCapacity).ok = false ∨
       (loadKeyFromSD env.fs PRIVATE_KEY_FILE keyBufferCapacity).ok = false) →
      (run env).halted = true ∧
      Event.seedCall ∉ (run env).trace ∧
      (∀ pt os, Event.encryptCall pt os ∉ (run env).trace) ∧
      (∀ ct os, Event.decryptCall ct os ∉ (run env).trace)) ∧
    (env.sdInitOk = true →
      (loadKeyFromSD env.fs PUBLIC_KEY_FILE keyBufferCapacity).ok = true →
      (loadKeyFromSD env.fs PRIVATE_KEY_FILE keyBufferCapacity).ok = true →
      env.lib.seedRet = 0 →
      (env.lib.parsePub
         (loadKeyFromSD env.fs PUBLIC_KEY_FILE keyBufferCapacity).buf
         (fileSize env.fs PUBLIC_KEY_FILE) ≠ 0 ∨
       env.lib.parsePriv
         (loadKeyFromSD env.fs PRIVATE_KEY_FILE keyBufferCapacity).buf
         (fileSize env.fs PRIVATE_KEY_FILE) ≠ 0) →
      (run env).halted = true ∧
      Event.seedCall ∈ (run env).trace ∧
      (∀ pt os, Event.encryptCall pt os ∉ (run env).trace) ∧
      (∀ ct os, Event.decryptCall ct os ∉ (run env).trace)) := by
  have hP := load_trace_cases env.fs PUBLIC_KEY_FILE keyBufferCapacity
  have hQ := load_trace_cases env.fs PRIVATE_KEY_FILE keyBufferCapacity
  constructor
  · intro hsd hfail
    by_cases hpub :
        (loadKeyFromSD env.fs PUBLIC_KEY_FILE keyBufferCapacity).ok = true
    · have hpriv : (loadKeyFromSD env.fs PRIVATE_KEY_FILE
          keyBufferCapacity).ok = false := by
        rcases hfail with h | h
        · rw [h] at hpub; exact absurd hpub (by simp)
        · exact h
      rcases hP with hP | ⟨nP, hP⟩ <;> rcases hQ with hQ | ⟨nQ, hQ⟩ <;>
        simp [run, hsd, hpub, hpriv, hP, hQ]
    · rw [Bool.not_eq_true] at hpub
      rcases hP with hP | ⟨nP, hP⟩ <;>
        simp [run, hsd, hpub, hP]
  · intro hsd hpub hpriv hseed hpf
    by_cases hppub : env.lib.parsePub
        (loadKeyFromSD env.fs PUBLIC_KEY_FILE keyBufferCapacity).buf
        (fileSize env.fs PUBLIC_KEY_FILE) = 0
    · have hppriv : env.lib.parsePriv
          (loadKeyFromSD env.fs PRIVATE_KEY_FILE keyBufferCapacity).buf
          (fileSize env.fs PRIVATE_KEY_FILE) ≠ 0 := by
        rcases hpf with h | h
        · exact absurd hppub h
        · exact h
      rcases hP with hP | ⟨nP, hP⟩ <;> rcases hQ with hQ | ⟨nQ, hQ⟩ <;>
        simp [run, runSeed, runParse, hsd, hpub, hpriv, hseed, hppub, hppriv,
          hP, hQ]
    · rcases hP with hP | ⟨nP, hP⟩ <;> rcases hQ with hQ | ⟨nQ, hQ⟩ <;>
        simp [run, runSeed, runParse, hsd, hpub, hpriv, hseed, hppub, hP, hQ]

/-- Claim C3 witness: the amended statement evaluated on the environment
whose public key fails to parse. -/
theorem C3_halt_before_crypto_witness :
    (run parseFailEnv).halted = true ∧
    Event.seedCall ∈ (run parseFailEnv).trace ∧
    (∀ pt os, Event.encryptCall pt os ∉ (run parseFailEnv).trace) ∧
    (∀ ct os, Event.decryptCall ct os ∉ (run parseFailEnv).trace) :=
  (C3_halt_before_crypto parseFailEnv).2 rfl (by decide) (by decide) rfl
    (Or.inl (by
      have hv : parseFailEnv.lib.parsePub
          (loadKeyFromSD parseFailEnv.fs PUBLIC_KEY_FILE keyBufferCapacity).buf
          (fileSize parseFailEnv.fs PUBLIC_KEY_FILE) = -1 := rfl
      rw [hv]
      decide))

/-- Every halting run ends with a printed report followed by the halt
event: a plain message for SD and key-load failures, the non-zero library
code for seed, parse, encrypt and decrypt failures. -/
theorem halted_run_reports (env : Env) :
    (run env).halted = true → EndsWithReport (run env).trace := by
  simp only [run, runSeed, runParse, runEncrypt, runDecrypt]
  split_ifs <;> intro hh <;>
    first
      | exact EndsWithReport.plain _ _
      | exact EndsWithReport.coded _ _ _ (by assumption)
      | exact absurd hh (by simp)

set_option maxHeartbeats 2000000 in
/-- A halting run never reaches the completion print. -/
theorem halted_run_no_completion (env : Env) :
    (run env).halted = true →
    Event.print "Demo completed!" ∉ (run env).trace := by
  have hP := load_trace_cases env.fs PUBLIC_KEY_FILE keyBufferCapacity
  have hQ := load_trace_cases env.fs PRIVATE_KEY_FILE keyBufferCapacity
  rcases hP with hP | ⟨nP, hP⟩ <;> rcases hQ with hQ | ⟨nQ, hQ⟩ <;>
    (simp only [run, runSeed, runParse, runEncrypt, runDecrypt]
     split_ifs) <;>
    intro hh <;>
    simp [hP, hQ] at hh ⊢

set_option maxHeartbeats 2000000 in
/-- A non-halting run never emits the halt event and reaches the completion
print. -/
theorem completed_run_no_halt (env : Env) :
    (run env).halted = false →
    Event.halt ∉ (run env).trace ∧
    Event.print "Demo completed!" ∈ (run env).trace := by
  have hP := load_trace_cases env.fs PUBLIC_KEY_FILE keyBufferCapacity
  have hQ := load_trace_cases env.fs PRIVATE_KEY_FILE keyBufferCapacity
  rcases hP with hP | ⟨nP, hP⟩ <;> rcases hQ with hQ | ⟨nQ, hQ⟩ <;>
    (simp only [run, runSeed, runParse, runEncrypt, runDecrypt]
     split_ifs) <;>
    intro hh <;>
    simp [hP, hQ] at hh ⊢

/-- Claim C4: every failure (SD init, file open / key load, seed, parse,
encrypt, decrypt) is fatal: when a run halts, its trace ends with a printed
report - for library failures the non-zero numeric code - followed by the
infinite idle loop, and the run never reaches the final completion print;
when no failure occurs, the run never halts and completes. -/
theorem C4_every_failure_fatal (env : Env) :
    ((run env).halted = true →
      EndsWithReport (run env).trace ∧
      Event.print "Demo completed!" ∉ (run env).trace) ∧
    ((run env).halted = false →
      Event.halt ∉ (run env).trace ∧
      Event.print "Demo completed!" ∈ (run env).trace) :=
  ⟨fun hh => ⟨halted_run_reports env hh, halted_run_no_completion env hh⟩,
    fun hh => completed_run_no_halt env hh⟩

/-- Claim C4 witness: evaluated on the environment whose SD initialization
fails. -/
theorem C4_every_failure_fatal_witness :
    (run sdFailEnv).halted = true ∧
    (EndsWithReport (run sdFailEnv).trace ∧
      Event.print "Demo completed!" ∉ (run sdFailEnv).trace) :=
  ⟨by decide, (C4_every_failure_fatal sdFailEnv).1 (by decide)⟩

/-- Claim C6: each key buffer is populated exactly once, by loadKeyFromSD,
with exactly the bytes read from its file, and is never mutated afterwards:
the parse call receives precisely those bytes together with the on-disk
length, and no other parse event with different buffer contents occurs in
any run. -/
theorem C6_key_buffers_loaded_once_never_mutated (env : Env)
    (pubContent privContent : List Nat)
    (hpubf : env.fs.files PUBLIC_KEY_FILE = some pubContent)
    (hprivf : env.fs.files PRIVATE_KEY_FILE = some privContent)
    (hsd : env.sdInitOk = true)
    (hpub : (loadKeyFromSD env.fs PUBLIC_KEY_FILE keyBufferCapacity).ok = true)
    (hpriv : (loadKeyFromSD env.fs PRIVATE_KEY_FILE keyBufferCapacity).ok = true)
    (hseed : env.lib.seedRet = 0) :
    (loadKeyFromSD env.fs PUBLIC_KEY_FILE keyBufferCapacity).buf =
      pubContent.take keyBufferCapacity ∧
    (loadKeyFromSD env.fs PRIVATE_KEY_FILE keyBufferCapacity).buf =
      privContent.take keyBufferCapacity ∧
    Event.parsePubCall (pubContent.take keyBufferCapacity)
      (fileSize env.fs PUBLIC_KEY_FILE) ∈ (run env).trace ∧
    (∀ b l, Event.parsePubCall b l ∈ (run env).trace →
      b = pubContent.take keyBufferCapacity ∧
      l = fileSize env.fs PUBLIC_KEY_FILE) ∧
    (∀ b l, Event.parsePrivCall b l ∈ (run env).trace →
      b = privContent.take keyBufferCapacity ∧
      l = fileSize env.fs PRIVATE_KEY_FILE) := by
  have hbufP : (loadKeyFromSD env.fs PUBLIC_KEY_FILE keyBufferCapacity).buf =
      pubContent.take keyBufferCapacity := by
    unfold loadKeyFromSD
    simp [hpubf]
  have hbufQ : (loadKeyFromSD env.fs PRIVATE_KEY_FILE keyBufferCapacity).buf =
      privContent.take keyBufferCapacity := by
    unfold loadKeyFromSD
    simp [hprivf]
  have htrP : (loadKeyFromSD env.fs PUBLIC_KEY_FILE keyBufferCapacity).trace =
      [Event.loaded (pubContent.take keyBufferCapacity).length
        PUBLIC_KEY_FILE] := by
    unfold loadKeyFromSD
    simp [hpubf]
  have htrQ : (loadKeyFromSD env.fs PRIVATE_KEY_FILE keyBufferCapacity).trace =
      [Event.loaded (privContent.take keyBufferCapacity).length
        PRIVATE_KEY_FILE] := by
    unfold loadKeyFromSD
    simp [hprivf]
  refine ⟨hbufP, hbufQ, ?_, ?_, ?_⟩
  · have hpfx := run_reach_parsePub env hsd hpub hpriv hseed
    rw [← hbufP]
    exact hpfx.subset (by simp)
  · intro b l hmem
    simp only [run, runSeed, runParse, runEncrypt, runDecrypt,
      hsd, hpub, hpriv, hseed] at hmem
    split_ifs at hmem <;> simp [htrP, htrQ, hbufP] at hmem <;>
      exact ⟨hmem.1, hmem.2⟩
  · intro b l hmem
    simp only [run, runSeed, runParse, runEncrypt, runDecrypt,
      hsd, hpub, hpriv, hseed] at hmem
    split_ifs at hmem <;> simp [htrP, htrQ, hbufQ] at hmem <;>
      exact ⟨hmem.1, hmem.2⟩

/-- Claim C6 witness: evaluated on the demo environment with its concrete
16-byte key files. -/
theorem C6_key_buffers_loaded_once_never_mutated_witness :
    (loadKeyFromSD demoEnv.fs PUBLIC_KEY_FILE keyBufferCapacity).buf =
      (List.replicate 16 48 : List Nat).take keyBufferCapacity ∧
    Event.parsePubCall ((List.replicate 16 48 : List Nat).take keyBufferCapacity)
      (fileSize demoEnv.fs PUBLIC_KEY_FILE) ∈ (run demoEnv).trace :=
  have h := C6_key_buffers_loaded_once_never_mutated demoEnv
    (List.replicate 16 48) (List.replicate 16 48) rfl rfl rfl
    (by decide) (by decide) rfl
  ⟨h.1, h.2.2.1⟩

end WioRsa
